import Mathlib

/-!
Verification of the peervault-iroh WASM wrapper (src/peervault-iroh/src/lib.rs)
against its natural-language specification.

The Rust code is a thin wrapper around the iroh transport provider.  We embed
the wrapper's own logic faithfully:

* bytes are `Nat` values (each wire byte is `< 256`, where that matters it is a
  hypothesis);
* a stream half is the ordered list of bytes flowing over it; `write_all`
  appends to the list, `read_exact` consumes a chunk from the front and fails
  on a short read (EOF), exactly the two primitives the wrapper uses;
* machine-integer casts are explicit: `bytes.len() as u32` becomes
  `usize_as_u32`, reduction modulo `2 ^ 32`;
* the external collaborators (iroh endpoint operations, serde_json) are
  oracles passed in as function arguments: the wrapper's behaviour is proved
  for every oracle, or under the contract hypotheses the spec states for the
  provider;
* fallible Rust code returning `Result<T, JsValue>` becomes
  `Except JsErr T`, with one `JsErr` constructor per distinct error message
  the wrapper produces.
-/

/-- Error values surfaced to JavaScript.  One constructor per distinct
`JsValue::from_str` message in lib.rs; the `String` field carries the
formatted underlying-error text where the code interpolates one. -/
inductive JsErr where
  /-- "Invalid key: expected 32 bytes" (lib.rs line 59) -/
  | invalidKeyLength
  /-- "Relay URL must be a string" (line 74) -/
  | relayUrlNotString
  /-- "Invalid relay URL ...: ..." (line 78) -/
  | invalidRelayUrl (url : String)
  /-- "Endpoint bind failed: ..." (line 94) -/
  | bindFailed (msg : String)
  /-- "Failed to serialize ticket: ..." (line 127) -/
  | serializeTicketFailed (msg : String)
  /-- "Invalid ticket: ..." (line 135) -/
  | invalidTicket (msg : String)
  /-- "Connection failed: ..." (line 142) -/
  | connectFailed (msg : String)
  /-- "Endpoint closed" (line 157) -/
  | endpointClosed
  /-- "Accept failed: ..." (line 161) -/
  | acceptFailed (msg : String)
  /-- "Write length failed: ..." (line 282); the model's channel never
  rejects a write, so the wrapped transport message is elided -/
  | writeLengthFailed
  /-- "Write data failed: ..." (line 287) -/
  | writeDataFailed
  /-- "Read length failed: ..." (line 302) -/
  | readLengthFailed
  /-- "Read data failed: ..." (line 314) -/
  | readDataFailed
  /-- "Message too large" (line 307) -/
  | messageTooLarge
  /-- "Finish failed: ..." (line 324) -/
  | finishFailed (msg : String)
  deriving DecidableEq, Repr

/-- The cast `n as u32` applied to a `usize` length: reduction modulo 2^32. -/
def usize_as_u32 (n : Nat) : Nat := n % 2 ^ 32

/-- Big-endian byte decomposition of a `u32`, modelling
`u32::to_be_bytes` (most significant byte first). -/
def u32_to_be_bytes (n : Nat) : List Nat :=
  [n / 2 ^ 24 % 256, n / 2 ^ 16 % 256, n / 2 ^ 8 % 256, n % 256]

/-- Big-endian recomposition of four bytes, modelling `u32::from_be_bytes`
(line 303).  Only ever applied to the 4-byte buffer `read_exact` returns. -/
def u32_from_be_bytes : List Nat → Nat
  | [a, b, c, d] => ((a * 256 + b) * 256 + c) * 256 + d
  | _ => 0

/-- Model of `SendStream::write_all`: the bytes of `buf` are appended, in
order and in full, to the stream half `chan`. -/
def write_all (chan buf : List Nat) : List Nat := chan ++ buf

/-- Model of `RecvStream::read_exact n`: consume exactly `n` bytes from the
front of the stream half, failing (short read / EOF) when fewer are
available. -/
def read_exact (n : Nat) (chan : List Nat) : Option (List Nat × List Nat) :=
  if n ≤ chan.length then some (chan.take n, chan.drop n) else none

namespace WasmStream

/-- `WasmStream::send` (lib.rs lines 274-290): two sequential `write_all`
calls on the send half, first the 4-byte big-endian prefix
`(bytes.len() as u32).to_be_bytes()`, then the payload bytes.  The result is
the send half after both writes; there is no size check and no failure mode
of the wrapper's own (only propagated write failures, which the byte-list
channel does not produce). -/
def send (chan : List Nat) (data : List Nat) : List Nat :=
  write_all (write_all chan (u32_to_be_bytes (usize_as_u32 data.length))) data

/-- `WasmStream::receive` (lib.rs lines 295-317): read exactly 4 bytes,
decode them as a big-endian `u32` length, reject lengths above
64 * 1024 * 1024 with `messageTooLarge` before any payload read, then read
exactly that many payload bytes.  Returns the message together with the rest
of the receive half. -/
def receive (chan : List Nat) : Except JsErr (List Nat × List Nat) :=
  match read_exact 4 chan with
  | none => .error .readLengthFailed
  | some (len_buf, rest) =>
    let len := u32_from_be_bytes len_buf
    if len > 64 * 1024 * 1024 then
      .error .messageTooLarge
    else
      match read_exact len rest with
      | none => .error .readDataFailed
      | some (data, rest2) => .ok (data, rest2)

end WasmStream

theorem read_exact_of_append (n : Nat) (pre l : List Nat)
    (h : pre.length = n) : read_exact n (pre ++ l) = some (pre, l) := by
  have hc : n ≤ (pre ++ l).length := by
    rw [List.length_append]; omega
  rw [read_exact, if_pos hc, ← h, List.take_left, List.drop_left]

theorem u32_be_round_trip (n : Nat) (h : n < 2 ^ 32) :
    u32_from_be_bytes (u32_to_be_bytes n) = n := by
  simp only [u32_to_be_bytes, u32_from_be_bytes]
  omega

theorem length_u32_to_be_bytes (n : Nat) :
    (u32_to_be_bytes n).length = 4 := rfl

theorem read_exact_all (l : List Nat) : read_exact l.length l = some (l, []) := by
  have h := read_exact_of_append l.length l [] rfl
  rwa [List.append_nil] at h

/-- C1: for every payload of length `0 ≤ L ≤ 64 MiB`, sending it and then
receiving on the paired half returns exactly the original payload bytes
(with the channel fully consumed); in particular the zero-length payload is
valid and yields the empty message. -/
theorem send_receive_round_trip (data : List Nat)
    (h : data.length ≤ 64 * 1024 * 1024) :
    WasmStream.receive (WasmStream.send [] data) = .ok (data, []) ∧
    WasmStream.receive (WasmStream.send [] []) = .ok ([], []) := by
  constructor
  · have h32 : data.length < 2 ^ 32 := by omega
    have hmod : usize_as_u32 data.length = data.length := Nat.mod_eq_of_lt h32
    rw [WasmStream.send, write_all, write_all, List.nil_append,
      WasmStream.receive, read_exact_of_append 4 _ data (length_u32_to_be_bytes _)]
    simp only [hmod, u32_be_round_trip data.length h32]
    rw [if_neg (by omega), read_exact_all]
  · rfl

theorem send_receive_round_trip_witness :
    WasmStream.receive (WasmStream.send [] [7, 8, 9]) = .ok ([7, 8, 9], []) :=
  (send_receive_round_trip [7, 8, 9] (by decide)).1

/-- C2: for every incoming 4-byte length prefix decoding to a value strictly
greater than 64 MiB, `receive` fails with `messageTooLarge` whatever follows
the prefix on the stream (in particular with nothing following it at all, so
no payload byte is read), and `messageTooLarge` is a different error value
from both read-failure errors. -/
theorem receive_rejects_oversize (b0 b1 b2 b3 : Nat) (tail : List Nat)
    (h : 64 * 1024 * 1024 < u32_from_be_bytes [b0, b1, b2, b3]) :
    WasmStream.receive ([b0, b1, b2, b3] ++ tail) = .error .messageTooLarge ∧
    JsErr.messageTooLarge ≠ JsErr.readLengthFailed ∧
    JsErr.messageTooLarge ≠ JsErr.readDataFailed := by
  refine ⟨?_, by decide, by decide⟩
  rw [WasmStream.receive, read_exact_of_append 4 [b0, b1, b2, b3] tail rfl]
  simp only [if_pos h]

theorem receive_rejects_oversize_witness :
    WasmStream.receive ([255, 255, 255, 255] ++ []) = .error .messageTooLarge ∧
    JsErr.messageTooLarge ≠ JsErr.readLengthFailed ∧
    JsErr.messageTooLarge ≠ JsErr.readDataFailed :=
  receive_rejects_oversize 255 255 255 255 [] (by decide)

/-- C3 (amended): for every payload of fewer than `2 ^ 32` bytes, `send`
appends to the channel exactly a 4-byte big-endian prefix decoding to the
payload size, immediately followed by the payload bytes, as two sequential
writes with nothing else (no padding, checksum or type tag).  The amendment
restricts the original claim to payloads below `2 ^ 32` bytes: the prefix is
the length cast `as u32`, i.e. reduced modulo `2 ^ 32`, so for longer
payloads it does not equal the payload size (see the counterexample). -/
theorem send_writes_prefix_then_payload (chan data : List Nat)
    (h : data.length < 2 ^ 32) :
    WasmStream.send chan data = chan ++ (u32_to_be_bytes data.length ++ data) ∧
    (u32_to_be_bytes data.length).length = 4 ∧
    u32_from_be_bytes (u32_to_be_bytes data.length) = data.length := by
  refine ⟨?_, rfl, u32_be_round_trip data.length h⟩
  rw [WasmStream.send, write_all, write_all, usize_as_u32, Nat.mod_eq_of_lt h,
    List.append_assoc]

theorem send_writes_prefix_then_payload_witness :
    WasmStream.send [9] [1, 2] = [9] ++ (u32_to_be_bytes 2 ++ [1, 2]) ∧
    (u32_to_be_bytes 2).length = 4 ∧
    u32_from_be_bytes (u32_to_be_bytes 2) = 2 :=
  send_writes_prefix_then_payload [9] [1, 2] (by decide)

/-- C3 (counterexample): for the concrete payload of `2 ^ 32` zero bytes,
the 4-byte prefix `send` actually writes decodes to `0`, not to the payload
size, so the claim "the prefix equals the payload size in bytes, for every
payload" is false on the code. -/
theorem send_prefix_neq_length_counterexample :
    u32_from_be_bytes ((WasmStream.send [] (List.replicate (2 ^ 32) (0 : Nat))).take 4)
      ≠ (List.replicate (2 ^ 32) (0 : Nat)).length := by
  have hlen : (List.replicate (2 ^ 32) (0 : Nat)).length = 2 ^ 32 :=
    List.length_replicate _ _
  rw [WasmStream.send, write_all, write_all, List.nil_append, hlen]
  rw [usize_as_u32, Nat.mod_self]
  rw [List.take_left' (length_u32_to_be_bytes 0)]
  decide

/-- C10: `send` performs no maximum-size check: it is total, and for every
payload (also above 64 MiB) it writes exactly the 4-byte big-endian encoding
of the length reduced modulo `2 ^ 32` followed by the payload; whenever the
payload has at least `2 ^ 32` bytes, the value encoded in the prefix differs
from the true payload length. -/
theorem send_truncates_length_mod_2_32 (data : List Nat) :
    WasmStream.send [] data = u32_to_be_bytes (data.length % 2 ^ 32) ++ data ∧
    u32_from_be_bytes (u32_to_be_bytes (data.length % 2 ^ 32)) = data.length % 2 ^ 32 ∧
    (2 ^ 32 ≤ data.length →
      u32_from_be_bytes (u32_to_be_bytes (data.length % 2 ^ 32)) ≠ data.length) := by
  have hm : data.length % 2 ^ 32 < 2 ^ 32 := Nat.mod_lt _ (by decide)
  refine ⟨?_, u32_be_round_trip _ hm, ?_⟩
  · rw [WasmStream.send, write_all, write_all, List.nil_append, usize_as_u32]
  · intro hge
    rw [u32_be_round_trip _ hm]
    omega

theorem send_truncates_length_mod_2_32_witness :
    WasmStream.send [] (List.replicate (2 ^ 32) (1 : Nat)) =
      u32_to_be_bytes ((List.replicate (2 ^ 32) (1 : Nat)).length % 2 ^ 32) ++
        List.replicate (2 ^ 32) (1 : Nat) ∧
    u32_from_be_bytes (u32_to_be_bytes ((List.replicate (2 ^ 32) (1 : Nat)).length % 2 ^ 32))
      ≠ (List.replicate (2 ^ 32) (1 : Nat)).length :=
  ⟨(send_truncates_length_mod_2_32 (List.replicate (2 ^ 32) 1)).1,
    (send_truncates_length_mod_2_32 (List.replicate (2 ^ 32) 1)).2.2
      (by rw [List.length_replicate])⟩

/-- Model of iroh `SecretKey` (an ed25519 signing key): `from_bytes` stores
the 32 raw seed bytes, `to_bytes` returns exactly them; the public key is
derived, never stored back into the seed. -/
structure SecretKey where
  key : List Nat
  deriving DecidableEq, Repr

/-- Model of `SecretKey::from_bytes(&[u8; 32])`. -/
def SecretKey.from_bytes (arr : List Nat) : SecretKey := ⟨arr⟩

/-- Model of `SecretKey::to_bytes()`. -/
def SecretKey.to_bytes (sk : SecretKey) : List Nat := sk.key

/-- Model of a `js_sys` value as seen through `as_string()`: either a string
or some non-string JavaScript value. -/
inductive JsValue where
  | str (s : String)
  | nonString
  deriving DecidableEq, Repr

/-- Model of iroh `RelayMode` as the wrapper builds it: a custom relay map
from parsed URLs, or the default public relays. -/
inductive RelayMode where
  | Custom (urls : List String)
  | Default
  deriving DecidableEq, Repr

/-- Modelled from the spec: the transport provider endpoint (spec section 6).
Its internal state is abstract except for the closed flag, which `close`
sets; the provider operations themselves (`connect`, `accept`, `addr`) are
oracles taken as arguments by the wrapper functions below. -/
structure ProviderEndpoint where
  closed : Bool
  deriving DecidableEq, Repr

/-- Modelled from the spec: closing the provider endpoint (spec section 4.3,
terminal `Closed` state). -/
def ProviderEndpoint.close (p : ProviderEndpoint) : ProviderEndpoint :=
  { p with closed := true }

/-- Modelled from the spec: a provider-level session; `remote_id` is the
authenticated remote identifier the provider presents (already in its
`to_string()` textual form). -/
structure ProviderConnection where
  remote_id : String
  deriving DecidableEq, Repr

/-- Modelled from the spec: an inbound handshake in progress, as produced by
the provider's accept operation (spec section 6, `InboundHandshake`); its
content is abstract. -/
structure Incoming where
  tag : Nat
  deriving DecidableEq, Repr

/-- Model of iroh `EndpointAddr` as the wrapper uses it: the remote public
identifier (`id`, already in its `to_string()` textual form) plus
reachability hints.  The ticket is the serde_json serialization of this
value. -/
structure EndpointAddr where
  id : String
  hints : List String
  deriving DecidableEq, Repr

/-- `WasmEndpoint` (lib.rs lines 36-40): the bound provider endpoint plus
the secret key it was created from. -/
structure WasmEndpoint where
  endpoint : ProviderEndpoint
  secret_key : SecretKey
  deriving DecidableEq, Repr

/-- `WasmConnection` (lib.rs lines 181-185): a provider session plus the
cached remote identifier string, set once at construction. -/
structure WasmConnection where
  connection : ProviderConnection
  remote_node_id : String
  deriving DecidableEq, Repr

/-- The `match key_bytes` block of `WasmEndpoint::create` (lib.rs lines
55-64): with bytes supplied, `vec.try_into() : [u8; 32]` succeeds exactly
when the length is 32 and the key is built from those bytes, otherwise the
call fails with "Invalid key: expected 32 bytes"; with no bytes supplied the
freshly generated key `gen` is used. -/
def createSecretKey (key_bytes : Option (List Nat)) (gen : SecretKey) :
    Except JsErr SecretKey :=
  match key_bytes with
  | some bytes =>
    if bytes.length = 32 then .ok (SecretKey.from_bytes bytes)
    else .error .invalidKeyLength
  | none => .ok gen

/-- The relay-URL loop of `WasmEndpoint::create` (lib.rs lines 69-81): each
array element must be a string and must parse as a relay URL
(`parseRelayUrl` models `str::parse::<RelayUrl>`); the first offending
element aborts with its error. -/
def collectRelayUrls (parseRelayUrl : String → Option String) :
    List JsValue → Except JsErr (List String)
  | [] => .ok []
  | v :: rest =>
    match v with
    | .nonString => .error .relayUrlNotString
    | .str s =>
      match parseRelayUrl s with
      | none => .error (.invalidRelayUrl s)
      | some url => (collectRelayUrls parseRelayUrl rest).map (url :: ·)

/-- The `match relay_urls` block of `WasmEndpoint::create` (lib.rs lines
67-86): a non-empty array yields `RelayMode::Custom` over the parsed URLs;
`None` or an empty array falls through to `RelayMode::Default`. -/
def computeRelayMode (relay_urls : Option (List JsValue))
    (parseRelayUrl : String → Option String) : Except JsErr RelayMode :=
  match relay_urls with
  | some urls =>
    if 0 < urls.length then
      (collectRelayUrls parseRelayUrl urls).map RelayMode.Custom
    else .ok .Default
  | none => .ok .Default

/-- `WasmEndpoint::create` (lib.rs lines 51-100): build the secret key from
the optional bytes, determine the relay mode, bind the provider endpoint
(`bind` is the oracle for `Endpoint::builder()...bind()`; its error becomes
"Endpoint bind failed"), and store both the endpoint and the secret key. -/
def WasmEndpoint.create (key_bytes : Option (List Nat))
    (relay_urls : Option (List JsValue)) (gen : SecretKey)
    (parseRelayUrl : String → Option String)
    (bind : SecretKey → RelayMode → Except String ProviderEndpoint) :
    Except JsErr WasmEndpoint :=
  match createSecretKey key_bytes gen with
  | .error e => .error e
  | .ok secret_key =>
    match computeRelayMode relay_urls parseRelayUrl with
    | .error e => .error e
    | .ok relay_mode =>
      match bind secret_key relay_mode with
      | .error msg => .error (.bindFailed msg)
      | .ok endpoint => .ok ⟨endpoint, secret_key⟩

/-- `WasmEndpoint::secret_key_bytes` (lib.rs lines 110-112): export the
stored secret key's bytes. -/
def WasmEndpoint.secret_key_bytes (e : WasmEndpoint) : List Nat :=
  e.secret_key.to_bytes

/-- `WasmEndpoint::generate_ticket` (lib.rs lines 118-128): await
`endpoint.online()` (a unit-returning await with no failure path, elided in
this synchronous embedding), take the endpoint address (`addr` oracle), and
serde_json-serialize it (`serialize` oracle); a serialization error is
wrapped as "Failed to serialize ticket". -/
def WasmEndpoint.generate_ticket (e : WasmEndpoint)
    (addr : ProviderEndpoint → EndpointAddr)
    (serialize : EndpointAddr → Except String String) : Except JsErr String :=
  match serialize (addr e.endpoint) with
  | .error msg => .error (.serializeTicketFailed msg)
  | .ok s => .ok s

/-- `WasmEndpoint::connect_with_ticket` (lib.rs lines 132-148): serde_json
parse of the ticket (`fromStr` oracle; a parse error is wrapped as "Invalid
ticket" and nothing else runs), then the remote identifier is taken from the
parsed address, then the provider dials (`connect` oracle, which may evolve
provider state; its error is wrapped as "Connection failed").  The returned
`WasmEndpoint` is the wrapper's state after the call. -/
def WasmEndpoint.connect_with_ticket (e : WasmEndpoint) (ticket : String)
    (fromStr : String → Except String EndpointAddr)
    (connect : ProviderEndpoint → EndpointAddr →
      Except String ProviderConnection × ProviderEndpoint) :
    Except JsErr WasmConnection × WasmEndpoint :=
  match fromStr ticket with
  | .error msg => (.error (.invalidTicket msg), e)
  | .ok endpoint_addr =>
    let remote_endpoint_id := endpoint_addr.id
    match connect e.endpoint endpoint_addr with
    | (.error msg, p) => (.error (.connectFailed msg), { e with endpoint := p })
    | (.ok connection, p) =>
      (.ok ⟨connection, remote_endpoint_id⟩, { e with endpoint := p })

/-- `WasmEndpoint::accept_connection` (lib.rs lines 153-169): the provider
accept (`accept` oracle) yields `none` exactly when the endpoint is closed,
which the wrapper maps to the "Endpoint closed" error; otherwise the inbound
handshake is completed (`complete` oracle, error wrapped as "Accept
failed") and the connection caches `connection.remote_id().to_string()`. -/
def WasmEndpoint.accept_connection (e : WasmEndpoint)
    (accept : ProviderEndpoint → Option Incoming)
    (complete : Incoming → Except String ProviderConnection) :
    Except JsErr WasmConnection :=
  match accept e.endpoint with
  | none => .error .endpointClosed
  | some incoming =>
    match complete incoming with
    | .error msg => .error (.acceptFailed msg)
    | .ok connection => .ok ⟨connection, connection.remote_id⟩

/-- `WasmEndpoint::close` (lib.rs lines 173-176): close the provider
endpoint and return `Ok(())`; the wrapper itself never fails here. -/
def WasmEndpoint.close (e : WasmEndpoint) :
    Except JsErr Unit × WasmEndpoint :=
  (.ok (), { e with endpoint := e.endpoint.close })

/-- `WasmConnection::remote_node_id` (lib.rs lines 190-192): return the
remote identifier cached at construction; no operation on a
`WasmConnection` ever rewrites that field. -/
def WasmConnection.remoteNodeId (c : WasmConnection) : String :=
  c.remote_node_id

/-- C4: for every 32-byte sequence, creating an endpoint from those bytes
and exporting the secret key bytes yields the original 32 bytes, whatever
the relay configuration, URL parser and provider bind outcome were. -/
theorem secret_key_round_trip (bytes : List Nat)
    (relay_urls : Option (List JsValue)) (gen : SecretKey)
    (parseRelayUrl : String → Option String)
    (bind : SecretKey → RelayMode → Except String ProviderEndpoint)
    (ep : WasmEndpoint) (h32 : bytes.length = 32)
    (hok : WasmEndpoint.create (some bytes) relay_urls gen parseRelayUrl bind
      = .ok ep) :
    ep.secret_key_bytes = bytes := by
  cases hrm : computeRelayMode relay_urls parseRelayUrl with
  | error e =>
    simp only [WasmEndpoint.create, createSecretKey, if_pos h32, hrm] at hok
    exact Except.noConfusion hok
  | ok rm =>
    cases hb : bind (SecretKey.from_bytes bytes) rm with
    | error m =>
      simp only [WasmEndpoint.create, createSecretKey, if_pos h32, hrm, hb] at hok
      exact Except.noConfusion hok
    | ok pe =>
      simp only [WasmEndpoint.create, createSecretKey, if_pos h32, hrm, hb,
        Except.ok.injEq] at hok
      subst hok
      rfl

theorem secret_key_round_trip_witness :
    (⟨⟨false⟩, SecretKey.from_bytes (List.replicate 32 7)⟩ : WasmEndpoint).secret_key_bytes
      = List.replicate 32 7 :=
  secret_key_round_trip (List.replicate 32 7) none ⟨[]⟩ (fun _ => none)
    (fun _ _ => .ok ⟨false⟩) ⟨⟨false⟩, SecretKey.from_bytes (List.replicate 32 7)⟩
    (by decide) rfl

/-- C5: with a supplied byte sequence whose length is not 32, endpoint
creation fails with `invalidKeyLength` (whatever the relay configuration and
bind oracle), while for any 32-byte sequence the length check passes and
yields the key built from exactly those bytes. -/
theorem create_key_length_check (bytes good : List Nat)
    (relay_urls : Option (List JsValue)) (gen : SecretKey)
    (parseRelayUrl : String → Option String)
    (bind : SecretKey → RelayMode → Except String ProviderEndpoint)
    (hbad : bytes.length ≠ 32) (hgood : good.length = 32) :
    WasmEndpoint.create (some bytes) relay_urls gen parseRelayUrl bind
      = .error .invalidKeyLength ∧
    createSecretKey (some good) gen = .ok (SecretKey.from_bytes good) := by
  constructor
  · rw [WasmEndpoint.create, createSecretKey, if_neg hbad]
  · rw [createSecretKey, if_pos hgood]

theorem create_key_length_check_witness :
    WasmEndpoint.create (some [1, 2, 3]) none ⟨[]⟩ (fun _ => none)
        (fun _ _ => .ok ⟨false⟩) = .error .invalidKeyLength ∧
    createSecretKey (some (List.replicate 32 0)) ⟨[]⟩
      = .ok (SecretKey.from_bytes (List.replicate 32 0)) :=
  create_key_length_check [1, 2, 3] (List.replicate 32 0) none ⟨[]⟩
    (fun _ => none) (fun _ _ => .ok ⟨false⟩) (by decide) (by decide)

/-- C6: for every ticket text the parse oracle rejects, `connect_with_ticket`
fails with `invalidTicket` (an error value distinct from every
`connectFailed`), the provider dial is never consulted (the result holds for
every `connect` oracle) and the endpoint state comes back unchanged. -/
theorem connect_invalid_ticket (e : WasmEndpoint) (ticket msg : String)
    (fromStr : String → Except String EndpointAddr)
    (connect : ProviderEndpoint → EndpointAddr →
      Except String ProviderConnection × ProviderEndpoint)
    (h : fromStr ticket = .error msg) :
    e.connect_with_ticket ticket fromStr connect
      = (.error (.invalidTicket msg), e) ∧
    ∀ m, JsErr.invalidTicket msg ≠ JsErr.connectFailed m := by
  constructor
  · rw [WasmEndpoint.connect_with_ticket, h]
  · intro m hq
    exact JsErr.noConfusion hq

theorem connect_invalid_ticket_witness :
    WasmEndpoint.connect_with_ticket ⟨⟨false⟩, ⟨[]⟩⟩ "not json"
        (fun _ => .error "expected value")
        (fun p _ => (.ok ⟨"r"⟩, p))
      = (.error (.invalidTicket "expected value"), ⟨⟨false⟩, ⟨[]⟩⟩) ∧
    ∀ m, JsErr.invalidTicket "expected value" ≠ JsErr.connectFailed m :=
  connect_invalid_ticket ⟨⟨false⟩, ⟨[]⟩⟩ "not json" "expected value"
    (fun _ => .error "expected value") (fun p _ => (.ok ⟨"r"⟩, p)) rfl

/-- C7: a connection obtained through `connect_with_ticket` carries as its
remote identifier exactly the identifier of the decoded ticket, and a
connection obtained through `accept_connection` carries exactly the
identifier the provider presents for the inbound dialer; the identifier is a
field set once at construction (`remoteNodeId` simply returns it, and no
operation on a `WasmConnection` produces a modified one). -/
theorem remote_id_fixed_at_construction (e : WasmEndpoint) (ticket : String)
    (fromStr : String → Except String EndpointAddr)
    (connect : ProviderEndpoint → EndpointAddr →
      Except String ProviderConnection × ProviderEndpoint)
    (addr : EndpointAddr) (c : WasmConnection) (e2 : WasmEndpoint)
    (accept : ProviderEndpoint → Option Incoming)
    (complete : Incoming → Except String ProviderConnection)
    (inc : Incoming) (conn : ProviderConnection) (c2 : WasmConnection)
    (hparse : fromStr ticket = .ok addr)
    (hconn : e.connect_with_ticket ticket fromStr connect = (.ok c, e2))
    (hacc : accept e.endpoint = some inc)
    (hcomp : complete inc = .ok conn)
    (hacc2 : e.accept_connection accept complete = .ok c2) :
    c.remoteNodeId = addr.id ∧ c2.remoteNodeId = conn.remote_id := by
  constructor
  · rcases hc : connect e.endpoint addr with ⟨r, p⟩
    cases r with
    | error m =>
      simp only [WasmEndpoint.connect_with_ticket, hparse, hc,
        Prod.mk.injEq] at hconn
      exact Except.noConfusion hconn.1
    | ok pc =>
      simp only [WasmEndpoint.connect_with_ticket, hparse, hc, Prod.mk.injEq,
        Except.ok.injEq] at hconn
      obtain ⟨h1, h2⟩ := hconn
      subst h1
      rfl
  · simp only [WasmEndpoint.accept_connection, hacc, hcomp,
      Except.ok.injEq] at hacc2
    subst hacc2
    rfl

theorem remote_id_fixed_at_construction_witness :
    (⟨⟨"peerA"⟩, "peerA"⟩ : WasmConnection).remoteNodeId = "peerA" ∧
    (⟨⟨"peerB"⟩, "peerB"⟩ : WasmConnection).remoteNodeId = "peerB" :=
  remote_id_fixed_at_construction ⟨⟨false⟩, ⟨[]⟩⟩ "t"
    (fun _ => .ok ⟨"peerA", []⟩)
    (fun p _ => (.ok ⟨"peerA"⟩, p))
    ⟨"peerA", []⟩ ⟨⟨"peerA"⟩, "peerA"⟩ ⟨⟨false⟩, ⟨[]⟩⟩
    (fun _ => some ⟨0⟩) (fun _ => .ok ⟨"peerB"⟩) ⟨0⟩ ⟨"peerB"⟩
    ⟨⟨"peerB"⟩, "peerB"⟩ rfl rfl rfl rfl rfl

/-- C8 (amended): once the endpoint is closed, `accept_connection` fails
with `endpointClosed` (the provider accept yields its closed indication,
which the wrapper maps to that error — so an accept call outstanding at
close time resolves with `endpointClosed` rather than another outcome), but
`connect_with_ticket` on the closed endpoint fails with `connectFailed`
wrapping the provider's error, which is a different error value from
`endpointClosed`.  The amendment replaces the original "every endpoint
operation fails with `EndpointClosed`": only the accept path produces that
error; the connect path wraps every provider failure, closed-endpoint ones
included, as `connectFailed` (and ticket generation has no `endpointClosed`
path at all, see the C9 theorems). -/
theorem closed_endpoint_operations (e : WasmEndpoint)
    (accept : ProviderEndpoint → Option Incoming)
    (complete : Incoming → Except String ProviderConnection)
    (ticket : String)
    (fromStr : String → Except String EndpointAddr)
    (connect : ProviderEndpoint → EndpointAddr →
      Except String ProviderConnection × ProviderEndpoint)
    (addr : EndpointAddr) (msg : String) (p : ProviderEndpoint)
    (haccClosed : accept (WasmEndpoint.close e).2.endpoint = none)
    (hparse : fromStr ticket = .ok addr)
    (hconnErr : connect (WasmEndpoint.close e).2.endpoint addr
      = (.error msg, p)) :
    (WasmEndpoint.close e).2.accept_connection accept complete
      = .error .endpointClosed ∧
    ((WasmEndpoint.close e).2.connect_with_ticket ticket fromStr connect).1
      = .error (.connectFailed msg) ∧
    JsErr.connectFailed msg ≠ JsErr.endpointClosed := by
  refine ⟨?_, ?_, fun hq => JsErr.noConfusion hq⟩
  · rw [WasmEndpoint.accept_connection, haccClosed]
  · simp only [WasmEndpoint.connect_with_ticket, hparse, hconnErr]

theorem closed_endpoint_operations_witness :
    (WasmEndpoint.close ⟨⟨false⟩, ⟨[]⟩⟩).2.accept_connection
        (fun q => if q.closed then none else some ⟨0⟩) (fun _ => .ok ⟨"peer"⟩)
      = .error .endpointClosed ∧
    ((WasmEndpoint.close ⟨⟨false⟩, ⟨[]⟩⟩).2.connect_with_ticket "t"
        (fun _ => .ok ⟨"peer", []⟩)
        (fun q _ => (if q.closed then .error "closed" else .ok ⟨"peer"⟩, q))).1
      = .error (.connectFailed "closed") ∧
    JsErr.connectFailed "closed" ≠ JsErr.endpointClosed :=
  closed_endpoint_operations ⟨⟨false⟩, ⟨[]⟩⟩
    (fun q => if q.closed then none else some ⟨0⟩) (fun _ => .ok ⟨"peer"⟩)
    "t" (fun _ => .ok ⟨"peer", []⟩)
    (fun q _ => (if q.closed then .error "closed" else .ok ⟨"peer"⟩, q))
    ⟨"peer", []⟩ "closed" ⟨true⟩ rfl rfl rfl

/-- C8 (counterexample): on a concretely closed endpoint, dialling with a
well-formed ticket fails with `connectFailed` — not with `endpointClosed` —
so the claim that every endpoint operation fails with `EndpointClosed` once
the endpoint is closed is false on the code. -/
theorem closed_endpoint_connect_counterexample :
    ((WasmEndpoint.close ⟨⟨false⟩, ⟨[]⟩⟩).2.connect_with_ticket "ticket"
        (fun _ => .ok ⟨"peer", []⟩)
        (fun q _ =>
          (if q.closed then .error "endpoint closed" else .ok ⟨"peer"⟩, q))).1
      = .error (.connectFailed "endpoint closed") ∧
    JsErr.connectFailed "endpoint closed" ≠ JsErr.endpointClosed := by
  exact ⟨rfl, fun hq => JsErr.noConfusion hq⟩

/-- C9 (amended): `generate_ticket` suspends on the provider's online
condition (a plain await that returns no value and has no failure path) and
then serializes the endpoint address; when serialization succeeds it returns
the ticket — even on a closed endpoint — and in no case does it fail with
`endpointClosed`, because the function has no such error path. -/
theorem generate_ticket_no_endpoint_closed (e : WasmEndpoint)
    (addr : ProviderEndpoint → EndpointAddr)
    (serialize : EndpointAddr → Except String String) (t : String)
    (_hclosed : e.endpoint.closed = true)
    (hser : serialize (addr e.endpoint) = .ok t) :
    e.generate_ticket addr serialize = .ok t ∧
    e.generate_ticket addr serialize ≠ .error .endpointClosed := by
  have hg : e.generate_ticket addr serialize = .ok t := by
    rw [WasmEndpoint.generate_ticket, hser]
  exact ⟨hg, fun hq => Except.noConfusion (hg ▸ hq)⟩

theorem generate_ticket_no_endpoint_closed_witness :
    WasmEndpoint.generate_ticket ⟨⟨true⟩, ⟨[]⟩⟩
        (fun _ => ⟨"self", []⟩) (fun _ => .ok "ticket") = .ok "ticket" ∧
    WasmEndpoint.generate_ticket ⟨⟨true⟩, ⟨[]⟩⟩
        (fun _ => ⟨"self", []⟩) (fun _ => .ok "ticket")
      ≠ .error .endpointClosed :=
  generate_ticket_no_endpoint_closed ⟨⟨true⟩, ⟨[]⟩⟩ (fun _ => ⟨"self", []⟩)
    (fun _ => .ok "ticket") "ticket" rfl rfl

/-- C9 (counterexample): on a concretely closed endpoint whose address
serializes fine, `generate_ticket` returns the ticket instead of failing
with `endpointClosed`, so the claim that closing the endpoint while waiting
makes ticket generation fail with `EndpointClosed` is false on the code
(there is no such error path in `generate_ticket`). -/
theorem generate_ticket_counterexample :
    WasmEndpoint.generate_ticket (WasmEndpoint.close ⟨⟨false⟩, ⟨[]⟩⟩).2
        (fun _ => ⟨"self", ["relay"]⟩) (fun _ => .ok "serialized")
      = .ok "serialized" ∧
    (Except.ok "serialized" : Except JsErr String)
      ≠ .error .endpointClosed := by
  exact ⟨rfl, fun hq => Except.noConfusion hq⟩
